import Mathlib

/-!
# Verification of the training-secretary sync utility

Shallow embedding of `src/sync.py` (the date-row resolver
`find_row_by_date`, the Strava workload aggregation
`get_strava_cycling_workloads`, and the post-fetch decision logic of
`main`), together with proofs of the specified properties.

The third-party date parser (`dateparser.parse` with `languages=["fr"]`)
is external to the repository; per its documented interface it maps a
string to a datetime or `None`, so it is embedded as an abstract
parameter `parse : String → Option PyDateTime`.  Concrete sample parsers
used in witnesses are modelled from the spec's sample strings.
-/

namespace TrainingSecretary

/-- A Python `datetime.date`: a calendar date with no time component.
Equality is componentwise, as in Python. -/
structure Date where
  year : Int
  month : Nat
  day : Nat
deriving DecidableEq, Repr

/-- The calendar-date and time-of-day content of a Python `datetime`
as returned by the parser.  `find_row_by_date` only ever inspects
`.date` (the result of `datetime.date()`); the remaining fields model
the time-of-day and timezone the parser may infer. -/
structure PyDateTime where
  date : Date
  hour : Nat
  minute : Nat
  second : Nat
  utcOffsetMinutes : Option Int
deriving DecidableEq, Repr

/-- Truthiness of a Python `str`: only the empty string is falsy
(`if not cell_value` in `find_row_by_date`). -/
def strFalsy (s : String) : Bool := s = ""

/-- Embedding of `find_row_by_date` from `src/sync.py` (lines 148-166), with the
spreadsheet read `sheet.col_values(1)` materialized as the input
`date_column` and `dateparser.parse(·, languages=["fr"])` abstracted as
`parse`.  Scans the column with 1-based row numbers, skips falsy
(empty-string) cells, and returns the first row whose parsed calendar
date equals the target, else `none`. -/
def find_row_by_date (parse : String → Option PyDateTime)
    (date_column : List String) (target : Date) : Option Nat :=
  go 1 date_column
where
  /-- The `for row_num, cell_value in enumerate(date_column, start=1)`
  loop of `find_row_by_date`. -/
  go : Nat → List String → Option Nat
  | _, [] => none
  | row_num, cell :: rest =>
    if strFalsy cell then go (row_num + 1) rest
    else
      match parse cell with
      | some parsed => if parsed.date = target then some row_num else go (row_num + 1) rest
      | none => go (row_num + 1) rest

/-- The sequence of cell values that `find_row_by_date` passes to
`dateparser.parse` during one run (same control flow as
`find_row_by_date`: falsy cells are not attempted, and the scan stops
at the first match). -/
def parse_attempts (parse : String → Option PyDateTime) :
    List String → Date → List String
  | [], _ => []
  | cell :: rest, target =>
    if strFalsy cell then parse_attempts parse rest target
    else
      match parse cell with
      | some parsed =>
        if parsed.date = target then [cell]
        else cell :: parse_attempts parse rest target
      | none => cell :: parse_attempts parse rest target

/-- A cell value parses (under the configured locale) to exactly the
target date: the parser succeeds on it and the calendar-date component
of the result equals the target. -/
def cellMatches (parse : String → Option PyDateTime) (cell : String) (target : Date) : Prop :=
  ∃ p, parse cell = some p ∧ p.date = target

instance (parse : String → Option PyDateTime) (cell : String) (target : Date) :
    Decidable (cellMatches parse cell target) := by
  unfold cellMatches
  cases h : parse cell with
  | none => exact .isFalse (by simp [h])
  | some p => exact decidable_of_iff (p.date = target) (by simp [h])

/-- Modelled from the spec: the behaviour of `dateparser.parse` with
`languages=["fr"]` on the spec's sample date strings ("tue. 19 jan.
2026" etc.), which the spec asserts parse to the corresponding calendar
dates; every other string fails to parse. -/
def sampleParse (s : String) : Option PyDateTime :=
  if s = "mon. 18 jan. 2026" then some ⟨⟨2026, 1, 18⟩, 0, 0, 0, none⟩
  else if s = "tue. 19 jan. 2026" then some ⟨⟨2026, 1, 19⟩, 0, 0, 0, none⟩
  else if s = "wed. 20 jan. 2026" then some ⟨⟨2026, 1, 20⟩, 0, 0, 0, none⟩
  else none

/-! ## Strava workload aggregation (`get_strava_cycling_workloads`) -/

/-- A Strava activity as consumed by `get_strava_cycling_workloads`:
the fields read from the JSON object.  `type` and `sport_type` are
`none` when the key is absent; `kilojoules` and `calories` are JSON
numbers or absent; `commute` models the truthiness of the `commute`
field (absent ↦ `false`). -/
structure Activity where
  type : Option String
  sport_type : Option String
  kilojoules : Option ℚ
  calories : Option ℚ
  commute : Bool
deriving DecidableEq, Repr

/-- Python `x or y` where `x` is a number-or-`None`: yields `y` when
`x` is `None` or (numerically) zero, else the value of `x`. -/
def pyOrNum (x : Option ℚ) (y : ℚ) : ℚ :=
  match x with
  | none => y
  | some k => if k = 0 then y else k

/-- Python `int(q)`: truncation toward zero
(`Int.tdiv` is division rounding toward zero). -/
def pyInt (q : ℚ) : Int :=
  q.num.tdiv q.den

/-- The filter of the aggregation loop (line 108 of `src/sync.py`):
`activity_type in ("Ride", "VirtualRide") or sport_type == "IndoorCycling"`. -/
def is_counted (a : Activity) : Bool :=
  a.type = some "Ride" ∨ a.type = some "VirtualRide" ∨ a.sport_type = some "IndoorCycling"

/-- Line 109 of `src/sync.py`:
`kj = activity.get("kilojoules") or activity.get("calories") or 0`. -/
def activity_kj (a : Activity) : ℚ :=
  pyOrNum a.kilojoules (pyOrNum a.calories 0)

/-- Accumulator state of the aggregation loop of
`get_strava_cycling_workloads`. -/
structure WorkloadAcc where
  commute_kj : ℚ
  non_commute_kj : ℚ
  commute_count : Nat
  non_commute_count : Nat
deriving DecidableEq, Repr

/-- One iteration of the `for activity in activities` loop
(lines 104-117 of `src/sync.py`). -/
def workload_step (acc : WorkloadAcc) (a : Activity) : WorkloadAcc :=
  if is_counted a then
    let kj := activity_kj a
    if a.commute then
      { acc with commute_kj := acc.commute_kj + kj,
                 commute_count := acc.commute_count + 1 }
    else
      { acc with non_commute_kj := acc.non_commute_kj + kj,
                 non_commute_count := acc.non_commute_count + 1 }
  else acc

/-- Embedding of `get_strava_cycling_workloads` from `src/sync.py` (lines 98-126),
with the fetched activity list as input (the HTTP fetch and credential
handling are I/O; this is the aggregation the claims are about).
Returns `(non_commute_kj, commute_kj)` = (training, commute) totals,
each `none` when no activity was counted toward it. -/
def get_strava_cycling_workloads (activities : List Activity) :
    Option Int × Option Int :=
  let acc := activities.foldl workload_step ⟨0, 0, 0, 0⟩
  if acc.commute_count = 0 ∧ acc.non_commute_count = 0 then (none, none)
  else
    (if acc.non_commute_count > 0 then some (pyInt acc.non_commute_kj) else none,
     if acc.commute_count > 0 then some (pyInt acc.commute_kj) else none)

/-- The claim's energy rule, stated from the spec's words: "energy
value is the activity's recorded kilojoules, falling back to calorie
count if kilojoules is absent, defaulting to zero if both are absent"
(fallback on absence only, not on a zero value). -/
def claimed_kj (a : Activity) : ℚ :=
  match a.kilojoules with
  | some k => k
  | none =>
    match a.calories with
    | some c => c
    | none => 0

/-- The aggregate that the claim (C2 as stated) describes: counted
activities bucketed by the commute flag, energies per `claimed_kj`,
each total absent iff zero activities were counted toward it. -/
def claimed_workloads (activities : List Activity) : Option Int × Option Int :=
  let counted := activities.filter is_counted
  let training := counted.filter (fun a => !a.commute)
  let commutes := counted.filter (fun a => a.commute)
  ((if training.length > 0 then some (pyInt (training.map claimed_kj).sum) else none),
   (if commutes.length > 0 then some (pyInt (commutes.map claimed_kj).sum) else none))

/-- The aggregate of the amended claim: as `claimed_workloads`, but the
energy value falls back from kilojoules to calories to zero on absence
*or a zero value* (Python falsiness), i.e. energies per `activity_kj`. -/
def amended_workloads (activities : List Activity) : Option Int × Option Int :=
  let counted := activities.filter is_counted
  let training := counted.filter (fun a => !a.commute)
  let commutes := counted.filter (fun a => a.commute)
  ((if training.length > 0 then some (pyInt (training.map activity_kj).sum) else none),
   (if commutes.length > 0 then some (pyInt (commutes.map activity_kj).sum) else none))

/-! ## The post-fetch decision logic of `main` -/

/-- Truthiness of a Python `int | None` value (`if resting_hr:` etc.):
truthy iff present and nonzero. -/
def numTruthy (x : Option Int) : Bool :=
  match x with
  | none => false
  | some v => v ≠ 0

/-- Outcome of one run of `main`: the process exit status and the
`sheet.update_cell(row, col, value)` calls performed, in order. -/
structure SyncOutcome where
  exitCode : Nat
  writes : List (Nat × Nat × Int)
deriving DecidableEq, Repr

/-- The decision logic of `main` from `src/sync.py` (lines 201-226),
given the fetched metric values and the materialized date column: the
row is resolved with `find_row_by_date`; if no row matches, the process
exits with status 1 having written nothing; otherwise each truthy
metric is written to its column (B=2 resting HR, I=9 training, J=10
commute); if no metric is truthy the process exits with status 1;
otherwise it completes normally (exit status 0). -/
def main_sync (parse : String → Option PyDateTime) (date_column : List String)
    (target : Date) (resting_hr training_kj commute_kj : Option Int) : SyncOutcome :=
  match find_row_by_date parse date_column target with
  | none => ⟨1, []⟩
  | some row_num =>
    let writes :=
      (if numTruthy resting_hr then [(row_num, 2, resting_hr.getD 0)] else []) ++
      (if numTruthy training_kj then [(row_num, 9, training_kj.getD 0)] else []) ++
      (if numTruthy commute_kj then [(row_num, 10, commute_kj.getD 0)] else [])
    if ¬ numTruthy resting_hr ∧ ¬ numTruthy training_kj ∧ ¬ numTruthy commute_kj then
      ⟨1, writes⟩
    else ⟨0, writes⟩

/-- A Python string that is empty or contains only whitespace
characters (the cells the spec calls "empty or whitespace-only"). -/
def isBlank (s : String) : Bool :=
  s.data.all Char.isWhitespace

/-- Modelled from the spec: a variant of `sampleParse` in which the
parser infers a time of day (noon) and a timezone (UTC+1) for each
sample string; the calendar-date components are unchanged. -/
def sampleParseNoon (s : String) : Option PyDateTime :=
  if s = "mon. 18 jan. 2026" then some ⟨⟨2026, 1, 18⟩, 12, 0, 0, some 60⟩
  else if s = "tue. 19 jan. 2026" then some ⟨⟨2026, 1, 19⟩, 12, 0, 0, some 60⟩
  else if s = "wed. 20 jan. 2026" then some ⟨⟨2026, 1, 20⟩, 12, 0, 0, some 60⟩
  else none

/-- Evaluation of `pyInt` on an integer value: it is that integer. -/
@[simp]
theorem pyInt_intCast (n : ℤ) : pyInt (n : ℚ) = n := by
  simp [pyInt, Int.tdiv_one]

/-- Evaluation of `pyInt` on a numeric literal. -/
@[simp]
theorem pyInt_ofNat (n : ℕ) [n.AtLeastTwo] :
    pyInt (no_index (OfNat.ofNat n) : ℚ) = OfNat.ofNat n := by
  simp [pyInt, Int.tdiv_one]

/-- Evaluation of `pyInt` at zero. -/
@[simp]
theorem pyInt_zero : pyInt 0 = 0 := by
  simp [pyInt, Int.tdiv_one]

/-! ## Helper lemmas about the scan loop of `find_row_by_date` -/

/-- If no cell of the remaining column matches the target, the scan
returns `none`, whatever the starting row number. -/
theorem go_eq_none (parse : String → Option PyDateTime) (target : Date) :
    ∀ (cells : List String) (n : Nat),
      (∀ i (hi : i < cells.length), ¬ cellMatches parse (cells.get ⟨i, hi⟩) target) →
      find_row_by_date.go parse target n cells = none := by
  intro cells
  induction cells with
  | nil => intro n _; rfl
  | cons c rest ih =>
    intro n h
    have hc : ¬ cellMatches parse c target := h 0 (by simp)
    have hrest : ∀ i (hi : i < rest.length), ¬ cellMatches parse (rest.get ⟨i, hi⟩) target := by
      intro i hi
      exact h (i + 1) (by simpa using Nat.succ_lt_succ hi)
    unfold find_row_by_date.go
    by_cases hf : strFalsy c
    · simp only [hf, if_true]
      exact ih (n + 1) hrest
    · simp only [hf, if_false]
      cases hp : parse c with
      | none => exact ih (n + 1) hrest
      | some p =>
        have hpd : ¬ p.date = target := fun hd => hc ⟨p, hp, hd⟩
        simp only [hpd, if_false]
        exact ih (n + 1) hrest

/-- If cell `i` (0-based) of the remaining column matches the target
and no earlier cell does, the scan returns row `n + i`, provided the
parser yields nothing on the empty string (as `dateparser` does). -/
theorem go_eq_some_of_first (parse : String → Option PyDateTime) (target : Date)
    (hempty : parse "" = none) :
    ∀ (cells : List String) (n i : Nat) (hi : i < cells.length),
      cellMatches parse (cells.get ⟨i, hi⟩) target →
      (∀ j (hj : j < cells.length), j < i → ¬ cellMatches parse (cells.get ⟨j, hj⟩) target) →
      find_row_by_date.go parse target n cells = some (n + i) := by
  intro cells
  induction cells with
  | nil => intro n i hi; exact absurd hi (by simp)
  | cons c rest ih =>
    intro n i hi hm hfirst
    unfold find_row_by_date.go
    cases i with
    | zero =>
      obtain ⟨p, hp, hd⟩ := hm
      simp only [List.get] at hp
      have hf : ¬ strFalsy c := by
        intro hc
        rw [show c = "" from by simpa [strFalsy] using hc, hempty] at hp
        exact Option.noConfusion hp
      simp only [hf, if_false, hp, hd, if_true]
      simp
    | succ j =>
      have hj : j < rest.length := by simpa using Nat.lt_of_succ_lt_succ hi
      have hm' : cellMatches parse (rest.get ⟨j, hj⟩) target := by
        simpa using hm
      have hfirst' : ∀ k (hk : k < rest.length), k < j →
          ¬ cellMatches parse (rest.get ⟨k, hk⟩) target := by
        intro k hk hkj
        have := hfirst (k + 1) (by simpa using Nat.succ_lt_succ hk) (Nat.succ_lt_succ hkj)
        simpa using this
      have hc : ¬ cellMatches parse c target :=
        hfirst 0 (by simp) (Nat.succ_pos j)
      have hrec : find_row_by_date.go parse target (n + 1) rest = some (n + 1 + j) :=
        ih (n + 1) j hj hm' hfirst'
      have harith : n + 1 + j = n + (j + 1) := by omega
      by_cases hf : strFalsy c
      · simp [hf, hrec, harith]
      · cases hp : parse c with
        | none => simp [hf, hrec, harith]
        | some p =>
          have hpd : ¬ p.date = target := fun hd => hc ⟨p, hp, hd⟩
          simp [hf, hpd, hrec, harith]

/-- Whenever the scan returns a row, that row is `n` plus the 0-based
position of a non-empty matching cell of the remaining column. -/
theorem go_some_inv (parse : String → Option PyDateTime) (target : Date) :
    ∀ (cells : List String) (n r : Nat),
      find_row_by_date.go parse target n cells = some r →
      ∃ i, r = n + i ∧ ∃ (hi : i < cells.length),
        cells.get ⟨i, hi⟩ ≠ "" ∧ cellMatches parse (cells.get ⟨i, hi⟩) target := by
  intro cells
  induction cells with
  | nil => intro n r h; exact Option.noConfusion h
  | cons c rest ih =>
    intro n r h
    unfold find_row_by_date.go at h
    by_cases hf : strFalsy c
    · simp only [hf, if_true] at h
      obtain ⟨i, hr, hi, hne, hm⟩ := ih (n + 1) r h
      exact ⟨i + 1, by omega, by simpa using Nat.succ_lt_succ hi, by simpa using hne,
        by simpa using hm⟩
    · simp only [hf, if_false] at h
      cases hp : parse c with
      | none =>
        rw [hp] at h
        obtain ⟨i, hr, hi, hne, hm⟩ := ih (n + 1) r h
        exact ⟨i + 1, by omega, by simpa using Nat.succ_lt_succ hi, by simpa using hne,
          by simpa using hm⟩
      | some p =>
        rw [hp] at h
        by_cases hd : p.date = target
        · simp only [hd, if_true] at h
          have hnr : n = r := by simpa using h
          refine ⟨0, by omega, by simp, ?_, ?_⟩
          · simpa [strFalsy] using hf
          · exact ⟨p, by simpa using hp, hd⟩
        · simp only [hd, if_false] at h
          obtain ⟨i, hr, hi, hne, hm⟩ := ih (n + 1) r h
          exact ⟨i + 1, by omega, by simpa using Nat.succ_lt_succ hi, by simpa using hne,
            by simpa using hm⟩

/-- Two parsers that agree on the calendar-date component of every
cell (whatever times of day or timezones they infer) drive the scan to
the same result. -/
theorem go_congr_dates (parse₁ parse₂ : String → Option PyDateTime) (target : Date)
    (h : ∀ s, (parse₁ s).map PyDateTime.date = (parse₂ s).map PyDateTime.date) :
    ∀ (cells : List String) (n : Nat),
      find_row_by_date.go parse₁ target n cells = find_row_by_date.go parse₂ target n cells := by
  intro cells
  induction cells with
  | nil => intro n; rfl
  | cons c rest ih =>
    intro n
    unfold find_row_by_date.go
    by_cases hf : strFalsy c
    · simp only [hf, if_true]
      exact ih (n + 1)
    · simp only [hf, if_false]
      have hc := h c
      cases hp1 : parse₁ c with
      | none =>
        rw [hp1] at hc
        cases hp2 : parse₂ c with
        | none => exact ih (n + 1)
        | some q => rw [hp2] at hc; exact Option.noConfusion hc
      | some p =>
        rw [hp1] at hc
        cases hp2 : parse₂ c with
        | none => rw [hp2] at hc; exact Option.noConfusion hc
        | some q =>
          rw [hp2] at hc
          have hdq : p.date = q.date := by simpa using hc
          by_cases hd : q.date = target
          · simp [hf, hdq, hd]
          · simp [hf, hdq, hd, ih (n + 1)]

/-- A cell on which the parser fails drives the scan exactly as an
empty cell does: replacing it by the empty string changes nothing. -/
theorem go_set_blank (parse : String → Option PyDateTime) (target : Date) :
    ∀ (cells : List String) (n i : Nat),
      (∀ (hi : i < cells.length), parse (cells.get ⟨i, hi⟩) = none) →
      find_row_by_date.go parse target n cells =
        find_row_by_date.go parse target n (cells.set i "") := by
  intro cells
  induction cells with
  | nil => intro n i _; rfl
  | cons c rest ih =>
    intro n i hfail
    cases i with
    | zero =>
      have hp : parse c = none := by simpa using hfail (by simp)
      have hset : (c :: rest).set 0 "" = "" :: rest := rfl
      rw [hset]
      by_cases hf : strFalsy c
      · have hc : c = "" := by simpa [strFalsy] using hf
        subst hc
        rfl
      · have h0 : strFalsy "" = true := rfl
        unfold find_row_by_date.go
        simp [hf, hp, h0]
    | succ j =>
      simp only [List.set]
      unfold find_row_by_date.go
      have hrec : find_row_by_date.go parse target (n + 1) rest =
          find_row_by_date.go parse target (n + 1) (rest.set j "") := by
        apply ih
        intro hj
        simpa using hfail (by simpa using Nat.succ_lt_succ hj)
      by_cases hf : strFalsy c
      · simp only [hf, if_true]; exact hrec
      · simp only [hf, if_false]
        cases hp : parse c with
        | none => exact hrec
        | some p =>
          by_cases hd : p.date = target
          · simp [hf, hd]
          · simp [hf, hd, hrec]

/-- Every cell value ever passed to the parser is non-falsy
(non-empty as a string). -/
theorem parse_attempts_ne_empty (parse : String → Option PyDateTime) (target : Date) :
    ∀ (cells : List String) (cell : String),
      cell ∈ parse_attempts parse cells target → strFalsy cell = false := by
  intro cells
  induction cells with
  | nil => intro cell h; exact absurd h (by simp [parse_attempts])
  | cons c rest ih =>
    intro cell h
    unfold parse_attempts at h
    by_cases hf : strFalsy c
    · simp only [hf, if_true] at h
      exact ih cell h
    · simp only [hf, if_false] at h
      cases hp : parse c with
      | none =>
        rw [hp] at h
        rcases List.mem_cons.mp h with hcell | hcell
        · rw [hcell]; simpa using hf
        · exact ih cell hcell
      | some p =>
        rw [hp] at h
        by_cases hd : p.date = target
        · simp only [hd, if_true] at h
          rw [List.mem_singleton.mp h]
          simpa using hf
        · simp only [hd, if_false] at h
          rcases List.mem_cons.mp h with hcell | hcell
          · rw [hcell]; simpa using hf
          · exact ih cell hcell

/-! ## Helper lemmas about the aggregation loop and the sample parsers -/

/-- The commute energy accumulated by the loop is the sum of the
Python-falsy-fallback energies of the counted commute activities. -/
theorem foldl_workload_commute_kj (acts : List Activity) :
    ∀ acc : WorkloadAcc,
      (acts.foldl workload_step acc).commute_kj =
        acc.commute_kj + ((acts.filter fun a => a.commute && is_counted a).map activity_kj).sum := by
  induction acts with
  | nil => intro acc; simp
  | cons a rest ih =>
    intro acc
    simp only [List.foldl_cons, List.filter_cons, ih]
    by_cases hcnt : is_counted a
    · by_cases hcom : a.commute
      · simp [workload_step, hcnt, hcom, add_assoc]
      · simp [workload_step, hcnt, hcom]
    · simp [workload_step, hcnt]

/-- The training (non-commute) energy accumulated by the loop. -/
theorem foldl_workload_non_commute_kj (acts : List Activity) :
    ∀ acc : WorkloadAcc,
      (acts.foldl workload_step acc).non_commute_kj =
        acc.non_commute_kj +
          ((acts.filter fun a => !a.commute && is_counted a).map activity_kj).sum := by
  induction acts with
  | nil => intro acc; simp
  | cons a rest ih =>
    intro acc
    simp only [List.foldl_cons, List.filter_cons, ih]
    by_cases hcnt : is_counted a
    · by_cases hcom : a.commute
      · simp [workload_step, hcnt, hcom]
      · simp [workload_step, hcnt, hcom, add_assoc]
    · simp [workload_step, hcnt]

/-- The commute-activity count accumulated by the loop. -/
theorem foldl_workload_commute_count (acts : List Activity) :
    ∀ acc : WorkloadAcc,
      (acts.foldl workload_step acc).commute_count =
        acc.commute_count + (acts.filter fun a => a.commute && is_counted a).length := by
  induction acts with
  | nil => intro acc; simp
  | cons a rest ih =>
    intro acc
    simp only [List.foldl_cons, List.filter_cons, ih]
    by_cases hcnt : is_counted a
    · by_cases hcom : a.commute
      · simp [workload_step, hcnt, hcom]; omega
      · simp [workload_step, hcnt, hcom]
    · simp [workload_step, hcnt]

/-- The training-activity count accumulated by the loop. -/
theorem foldl_workload_non_commute_count (acts : List Activity) :
    ∀ acc : WorkloadAcc,
      (acts.foldl workload_step acc).non_commute_count =
        acc.non_commute_count + (acts.filter fun a => !a.commute && is_counted a).length := by
  induction acts with
  | nil => intro acc; simp
  | cons a rest ih =>
    intro acc
    simp only [List.foldl_cons, List.filter_cons, ih]
    by_cases hcnt : is_counted a
    · by_cases hcom : a.commute
      · simp [workload_step, hcnt, hcom]
      · simp [workload_step, hcnt, hcom]; omega
    · simp [workload_step, hcnt]

/-- Two calendar dates are equal exactly when their day, month and
year components all are. -/
theorem date_eq_iff (a b : Date) :
    a = b ↔ a.day = b.day ∧ a.month = b.month ∧ a.year = b.year := by
  cases a
  cases b
  simp only [Date.mk.injEq]
  tauto

/-- The sample parser yields nothing on blank (empty or
whitespace-only) strings: none of its sample date strings is blank. -/
theorem sampleParse_blank (s : String) (hs : isBlank s = true) : sampleParse s = none := by
  unfold sampleParse
  split_ifs with h1 h2 h3
  · subst h1; exact absurd hs (by decide)
  · subst h2; exact absurd hs (by decide)
  · subst h3; exact absurd hs (by decide)
  · rfl

/-- The two sample parsers agree on every calendar-date component and
differ only in the inferred time of day and timezone. -/
theorem sample_parsers_agree (s : String) :
    (sampleParse s).map PyDateTime.date = (sampleParseNoon s).map PyDateTime.date := by
  unfold sampleParse sampleParseNoon
  split_ifs <;> rfl

/-! ## Claim theorems -/

/-- Claim C1: for every date column that contains at least one cell
parsing (under the configured French locale) to exactly the target
date, `find_row_by_date` returns the 1-based row index of the first
such cell.  (`hempty` records that the parser yields no date on the
empty string, which holds of `dateparser`; `i` is the 0-based position
of the first matching cell, so the returned row is `i + 1`.) -/
theorem find_row_by_date_returns_first_match
    (parse : String → Option PyDateTime) (date_column : List String) (target : Date)
    (hempty : parse "" = none)
    (i : Nat) (hi : i < date_column.length)
    (hmatch : cellMatches parse (date_column.get ⟨i, hi⟩) target)
    (hfirst : ∀ j (hj : j < date_column.length), j < i →
      ¬ cellMatches parse (date_column.get ⟨j, hj⟩) target) :
    find_row_by_date parse date_column target = some (i + 1) := by
  have h := go_eq_some_of_first parse target hempty date_column 1 i hi hmatch hfirst
  rw [find_row_by_date, h, Nat.add_comm]

/-- Witness for C1: the claim's concrete instance — the column
`["", "tue. 19 jan. 2026", "wed. 20 jan. 2026", "wed. 20 jan. 2026"]`
with target 2026-01-20 yields row 3 (first match, 1-based, empty cell
skipped). -/
theorem find_row_by_date_returns_first_match_witness :
    find_row_by_date sampleParse
      ["", "tue. 19 jan. 2026", "wed. 20 jan. 2026", "wed. 20 jan. 2026"]
      ⟨2026, 1, 20⟩ = some 3 :=
  find_row_by_date_returns_first_match sampleParse
    ["", "tue. 19 jan. 2026", "wed. 20 jan. 2026", "wed. 20 jan. 2026"]
    ⟨2026, 1, 20⟩ rfl 2 (by decide) (by decide) (by decide)

/-- Claim C5: for every date column in which no cell parses to the
target date — including the empty column — `find_row_by_date` returns
the absence indicator `none`, which differs from `some 0` ("row 0")
and from `some r` for every row number `r`. -/
theorem find_row_by_date_no_match_none
    (parse : String → Option PyDateTime) (date_column : List String) (target : Date)
    (h : ∀ i (hi : i < date_column.length),
      ¬ cellMatches parse (date_column.get ⟨i, hi⟩) target) :
    find_row_by_date parse date_column target = none ∧
    ∀ r : Nat, find_row_by_date parse date_column target ≠ some r := by
  have h0 := go_eq_none parse target date_column 1 h
  refine ⟨by rw [find_row_by_date, h0], ?_⟩
  intro r hr
  rw [find_row_by_date, h0] at hr
  exact Option.noConfusion hr

/-- Witness for C5: the empty column and the spec's one-cell column
`["mon. 18 jan. 2026"]` both yield `none` for target 2026-01-20. -/
theorem find_row_by_date_no_match_none_witness :
    find_row_by_date sampleParse [] ⟨2026, 1, 20⟩ = none ∧
    find_row_by_date sampleParse ["mon. 18 jan. 2026"] ⟨2026, 1, 20⟩ = none :=
  ⟨(find_row_by_date_no_match_none sampleParse [] ⟨2026, 1, 20⟩ (by decide)).1,
   (find_row_by_date_no_match_none sampleParse ["mon. 18 jan. 2026"] ⟨2026, 1, 20⟩
      (by decide)).1⟩

/-- Claim C6: a cell on which the parser fails (under every supplied
locale — the embedded `parse` already tries the whole locale list) is
treated as non-matching and skipped: the scan behaves exactly as if
the cell were empty, and that row is never returned.  The embedded
scan is a total function, so no individual parse failure is fatal. -/
theorem find_row_by_date_unparsable_skipped
    (parse : String → Option PyDateTime) (date_column : List String) (target : Date)
    (i : Nat)
    (hfail : ∀ (hi : i < date_column.length), parse (date_column.get ⟨i, hi⟩) = none) :
    find_row_by_date parse date_column target =
      find_row_by_date parse (date_column.set i "") target ∧
    find_row_by_date parse date_column target ≠ some (i + 1) := by
  constructor
  · have h := go_set_blank parse target date_column 1 i hfail
    rw [find_row_by_date, h, find_row_by_date]
  · intro hsome
    rw [find_row_by_date] at hsome
    obtain ⟨k, hk, hklen, _, p, hp, _⟩ := go_some_inv parse target date_column 1 (i + 1) hsome
    have hki : k = i := by omega
    subst hki
    rw [hfail hklen] at hp
    exact Option.noConfusion hp

/-- Witness for C6: a column whose first cell is unparsable garbage
behaves exactly like one whose first cell is empty, and the garbage
row is not returned. -/
theorem find_row_by_date_unparsable_skipped_witness :
    find_row_by_date sampleParse ["not a date", "wed. 20 jan. 2026"] ⟨2026, 1, 20⟩ =
      find_row_by_date sampleParse (["not a date", "wed. 20 jan. 2026"].set 0 "")
        ⟨2026, 1, 20⟩ ∧
    find_row_by_date sampleParse ["not a date", "wed. 20 jan. 2026"] ⟨2026, 1, 20⟩ ≠
      some 1 :=
  find_row_by_date_unparsable_skipped sampleParse ["not a date", "wed. 20 jan. 2026"]
    ⟨2026, 1, 20⟩ 0 (fun _ => rfl)

/-- Claim C7: the scan compares only the calendar-date component of a
parsed cell (two parsers agreeing on dates but not on times of day or
timezones drive it identically), and a cell matches exactly when day,
month and year all equal the target's. -/
theorem find_row_by_date_date_component_only
    (parse₁ parse₂ : String → Option PyDateTime)
    (h : ∀ s, (parse₁ s).map PyDateTime.date = (parse₂ s).map PyDateTime.date)
    (date_column : List String) (target : Date) :
    find_row_by_date parse₁ date_column target =
      find_row_by_date parse₂ date_column target ∧
    ∀ cell, cellMatches parse₁ cell target ↔
      ∃ p, parse₁ cell = some p ∧ p.date.day = target.day ∧
        p.date.month = target.month ∧ p.date.year = target.year := by
  constructor
  · have hgo := go_congr_dates parse₁ parse₂ target h date_column 1
    rw [find_row_by_date, hgo, find_row_by_date]
  · intro cell
    unfold cellMatches
    constructor
    · rintro ⟨p, hp, hd⟩
      exact ⟨p, hp, ((date_eq_iff p.date target).mp hd).1,
        ((date_eq_iff p.date target).mp hd).2.1, ((date_eq_iff p.date target).mp hd).2.2⟩
    · rintro ⟨p, hp, hday, hmon, hyear⟩
      exact ⟨p, hp, (date_eq_iff p.date target).mpr ⟨hday, hmon, hyear⟩⟩

/-- Witness for C7: the sample parser and its variant that infers noon
UTC+1 for every cell resolve the claim's column identically. -/
theorem find_row_by_date_date_component_only_witness :
    find_row_by_date sampleParse
        ["", "tue. 19 jan. 2026", "wed. 20 jan. 2026", "wed. 20 jan. 2026"]
        ⟨2026, 1, 20⟩ =
      find_row_by_date sampleParseNoon
        ["", "tue. 19 jan. 2026", "wed. 20 jan. 2026", "wed. 20 jan. 2026"]
        ⟨2026, 1, 20⟩ :=
  (find_row_by_date_date_component_only sampleParse sampleParseNoon sample_parsers_agree
    ["", "tue. 19 jan. 2026", "wed. 20 jan. 2026", "wed. 20 jan. 2026"] ⟨2026, 1, 20⟩).1

/-- Claim C8: `find_row_by_date` is deterministic and side-effect free:
it is a pure function of the materialized column and the target, so a
second call on the same unchanged column yields the same result.  (In
this embedding purity holds by construction — the column cannot be
mutated — so the content of the claim is the equality below.) -/
theorem find_row_by_date_idempotent
    (parse : String → Option PyDateTime) (column₁ column₂ : List String) (target : Date)
    (hsame : column₂ = column₁) :
    find_row_by_date parse column₂ target = find_row_by_date parse column₁ target := by
  rw [hsame]

/-- Witness for C8: two calls on the claim's concrete column agree. -/
theorem find_row_by_date_idempotent_witness :
    find_row_by_date sampleParse
        ["", "tue. 19 jan. 2026", "wed. 20 jan. 2026", "wed. 20 jan. 2026"]
        ⟨2026, 1, 20⟩ =
      find_row_by_date sampleParse
        ["", "tue. 19 jan. 2026", "wed. 20 jan. 2026", "wed. 20 jan. 2026"]
        ⟨2026, 1, 20⟩ :=
  find_row_by_date_idempotent sampleParse
    ["", "tue. 19 jan. 2026", "wed. 20 jan. 2026", "wed. 20 jan. 2026"]
    ["", "tue. 19 jan. 2026", "wed. 20 jan. 2026", "wed. 20 jan. 2026"]
    ⟨2026, 1, 20⟩ rfl

/-- Claim C9: whenever `find_row_by_date` returns a row number `r`
rather than `none`, then `1 ≤ r ≤ length`, the cell at 1-based
position `r` is non-empty, and that cell parses (under the configured
locale) to a value whose calendar-date component equals the target. -/
theorem find_row_by_date_some_invariant
    (parse : String → Option PyDateTime) (date_column : List String) (target : Date)
    (r : Nat)
    (h : find_row_by_date parse date_column target = some r) :
    1 ≤ r ∧ r ≤ date_column.length ∧
    ∃ (hr : r - 1 < date_column.length),
      date_column.get ⟨r - 1, hr⟩ ≠ "" ∧
      cellMatches parse (date_column.get ⟨r - 1, hr⟩) target := by
  rw [find_row_by_date] at h
  obtain ⟨i, hri, hi, hne, hm⟩ := go_some_inv parse target date_column 1 r h
  subst hri
  have hidx : 1 + i - 1 = i := by omega
  refine ⟨by omega, by omega, ?_⟩
  refine ⟨by omega, ?_, ?_⟩
  · simpa [hidx] using hne
  · simpa [hidx] using hm

/-- Witness for C9: on the claim's concrete column the returned row 3
is in range, its cell is non-empty and it parses to the target. -/
theorem find_row_by_date_some_invariant_witness :
    1 ≤ 3 ∧
      3 ≤ (["", "tue. 19 jan. 2026", "wed. 20 jan. 2026", "wed. 20 jan. 2026"] :
        List String).length ∧
    ∃ (hr : 3 - 1 <
        (["", "tue. 19 jan. 2026", "wed. 20 jan. 2026", "wed. 20 jan. 2026"] :
          List String).length),
      (["", "tue. 19 jan. 2026", "wed. 20 jan. 2026", "wed. 20 jan. 2026"] :
        List String).get ⟨3 - 1, hr⟩ ≠ "" ∧
      cellMatches sampleParse
        ((["", "tue. 19 jan. 2026", "wed. 20 jan. 2026", "wed. 20 jan. 2026"] :
          List String).get ⟨3 - 1, hr⟩) ⟨2026, 1, 20⟩ :=
  find_row_by_date_some_invariant sampleParse
    ["", "tue. 19 jan. 2026", "wed. 20 jan. 2026", "wed. 20 jan. 2026"]
    ⟨2026, 1, 20⟩ 3 (by decide)

/-- Claim C4, counterexample: the claim "empty or whitespace-only cells
are skipped without ever attempting to parse them" is false: only the
empty string is falsy in Python, so a whitespace-only cell such as
`" "` IS passed to `dateparser.parse` (here: appears among the parse
attempts). -/
theorem find_row_by_date_whitespace_cex :
    ¬ ∀ (parse : String → Option PyDateTime) (date_column : List String) (target : Date)
        (cell : String), cell ∈ parse_attempts parse date_column target →
          isBlank cell = false := by
  intro h
  have hmem : " " ∈ parse_attempts (fun _ => none) [" "] ⟨2026, 1, 20⟩ := by
    simp [parse_attempts, strFalsy]
  have := h (fun _ => none) [" "] ⟨2026, 1, 20⟩ " " hmem
  exact absurd this (by decide)

/-- Claim C4, amended: cells that are empty strings are skipped without
a parse attempt; whitespace-only cells are passed to the parser but —
the parser yielding nothing on blank strings — are treated as
non-matching and skipped without error (their row is never returned,
and the total scan never fails). -/
theorem find_row_by_date_blank_cells
    (parse : String → Option PyDateTime)
    (hblank : ∀ s, isBlank s = true → parse s = none)
    (date_column : List String) (target : Date) :
    "" ∉ parse_attempts parse date_column target ∧
    ∀ i (hi : i < date_column.length), isBlank (date_column.get ⟨i, hi⟩) = true →
      find_row_by_date parse date_column target ≠ some (i + 1) := by
  constructor
  · intro hmem
    have := parse_attempts_ne_empty parse target date_column "" hmem
    simp [strFalsy] at this
  · intro i hi hcell hsome
    rw [find_row_by_date] at hsome
    obtain ⟨k, hk, hklen, _, p, hp, _⟩ := go_some_inv parse target date_column 1 (i + 1) hsome
    have hki : k = i := by omega
    subst hki
    rw [hblank _ hcell] at hp
    exact Option.noConfusion hp

/-- Witness for the amended C4: on a column with an empty cell, a
whitespace-only cell and a matching cell, the empty string is never
parse-attempted and the whitespace row is not returned. -/
theorem find_row_by_date_blank_cells_witness :
    "" ∉ parse_attempts sampleParse ["", " ", "wed. 20 jan. 2026"] ⟨2026, 1, 20⟩ ∧
    find_row_by_date sampleParse ["", " ", "wed. 20 jan. 2026"] ⟨2026, 1, 20⟩ ≠ some 2 :=
  ⟨(find_row_by_date_blank_cells sampleParse sampleParse_blank
      ["", " ", "wed. 20 jan. 2026"] ⟨2026, 1, 20⟩).1,
   (find_row_by_date_blank_cells sampleParse sampleParse_blank
      ["", " ", "wed. 20 jan. 2026"] ⟨2026, 1, 20⟩).2 1 (by decide) (by decide)⟩

/-- Claim C2, counterexample: the claim's energy rule "kilojoules,
falling back to calories only if kilojoules is absent" is false on the
code: Python's `or` also falls through on a present-but-zero
kilojoules value.  For a single non-commute ride with `kilojoules = 0`
and `calories = 80` the code yields training workload 80, while the
claimed rule yields 0. -/
theorem get_strava_cycling_workloads_kilojoules_zero_cex :
    get_strava_cycling_workloads
        [⟨some "Ride", some "Ride", some 0, some 80, false⟩] = (some 80, none) ∧
    claimed_workloads [⟨some "Ride", some "Ride", some 0, some 80, false⟩] =
        (some 0, none) ∧
    get_strava_cycling_workloads [⟨some "Ride", some "Ride", some 0, some 80, false⟩] ≠
      claimed_workloads [⟨some "Ride", some "Ride", some 0, some 80, false⟩] := by
  refine ⟨?_, ?_, ?_⟩
  · norm_num [get_strava_cycling_workloads, workload_step, is_counted, activity_kj, pyOrNum]
  · norm_num [claimed_workloads, claimed_kj, is_counted]
  · norm_num [get_strava_cycling_workloads, claimed_workloads, claimed_kj, workload_step,
      is_counted, activity_kj, pyOrNum]

/-- Claim C2, amended: an activity counts toward cycling workload iff
its type is `"Ride"` or `"VirtualRide"` or its sport_type is
`"IndoorCycling"`; a counted activity contributes to the commute total
iff its commute flag is set, otherwise to the training total; its
energy value is its kilojoules, falling back to calories if kilojoules
is absent *or zero*, and to zero if both are absent *or zero*; a total
is absent iff zero activities were counted toward it.  In particular
the claim's two concrete examples hold: a non-commute ride with
kilojoules 120 plus an indoor-cycling entry with only calories 80
yield training 200 and no commute total, and a single commute ride
with kilojoules 95 yields commute 95 and no training total. -/
theorem get_strava_cycling_workloads_spec (activities : List Activity) :
    get_strava_cycling_workloads activities = amended_workloads activities ∧
    get_strava_cycling_workloads
      [⟨some "Ride", some "Ride", some 120, none, false⟩,
       ⟨some "Workout", some "IndoorCycling", none, some 80, false⟩] = (some 200, none) ∧
    get_strava_cycling_workloads
      [⟨some "Ride", some "Ride", some 95, none, true⟩] = (none, some 95) := by
  refine ⟨?_, ?_, ?_⟩
  · rw [get_strava_cycling_workloads, amended_workloads]
    simp only [List.filter_filter,
      foldl_workload_commute_kj activities ⟨0, 0, 0, 0⟩,
      foldl_workload_non_commute_kj activities ⟨0, 0, 0, 0⟩,
      foldl_workload_commute_count activities ⟨0, 0, 0, 0⟩,
      foldl_workload_non_commute_count activities ⟨0, 0, 0, 0⟩]
    simp only [Nat.zero_add, zero_add]
    by_cases hcm : (activities.filter fun a => a.commute && is_counted a).length = 0
    · by_cases htr : (activities.filter fun a => !a.commute && is_counted a).length = 0
      · simp [hcm, htr]
      · simp [hcm, htr, Nat.pos_of_ne_zero]
    · by_cases htr : (activities.filter fun a => !a.commute && is_counted a).length = 0
      · simp [hcm, htr, Nat.pos_of_ne_zero]
      · simp [hcm, htr, Nat.pos_of_ne_zero]
  · norm_num [get_strava_cycling_workloads, workload_step, is_counted, activity_kj, pyOrNum]
  · norm_num [get_strava_cycling_workloads, workload_step, is_counted, activity_kj, pyOrNum]

/-- Claim C3: the sync exits with status 0 on success — including
partial success, i.e. whenever a row was found and at least one metric
was truthy, in which case at least one cell write was performed; it
exits with a non-zero status when no row matches the target date
(writing nothing), and when no data at all was available it exits
non-zero and performs no cell write. -/
theorem main_sync_exit_status
    (parse : String → Option PyDateTime) (date_column : List String) (target : Date)
    (resting_hr training_kj commute_kj : Option Int) :
    (find_row_by_date parse date_column target = none →
      main_sync parse date_column target resting_hr training_kj commute_kj = ⟨1, []⟩) ∧
    (∀ r, find_row_by_date parse date_column target = some r →
      (numTruthy resting_hr ∨ numTruthy training_kj ∨ numTruthy commute_kj) →
      (main_sync parse date_column target resting_hr training_kj commute_kj).exitCode = 0 ∧
      (main_sync parse date_column target resting_hr training_kj commute_kj).writes ≠ []) ∧
    (resting_hr = none → training_kj = none → commute_kj = none →
      (main_sync parse date_column target resting_hr training_kj commute_kj).exitCode ≠ 0 ∧
      (main_sync parse date_column target resting_hr training_kj commute_kj).writes = []) := by
  refine ⟨?_, ?_, ?_⟩
  · intro hnone
    rw [main_sync, hnone]
  · intro r hrow hor
    by_cases h1 : numTruthy resting_hr <;> by_cases h2 : numTruthy training_kj <;>
      by_cases h3 : numTruthy commute_kj <;>
      simp [main_sync, hrow, h1, h2, h3] <;> tauto
  · intro e1 e2 e3
    subst e1; subst e2; subst e3
    cases hrow : find_row_by_date parse date_column target with
    | none => simp [main_sync, hrow]
    | some r => simp [main_sync, hrow, numTruthy]

/-- Witness for C3: with a matching row and fetched values 55 bpm and
200 kJ the run exits 0 having written something; with a matching row
and no data at all it exits non-zero writing nothing; with no matching
row it exits 1 writing nothing. -/
theorem main_sync_exit_status_witness :
    ((main_sync sampleParse ["tue. 19 jan. 2026"] ⟨2026, 1, 19⟩
        (some 55) (some 200) none).exitCode = 0 ∧
      (main_sync sampleParse ["tue. 19 jan. 2026"] ⟨2026, 1, 19⟩
        (some 55) (some 200) none).writes ≠ []) ∧
    ((main_sync sampleParse ["tue. 19 jan. 2026"] ⟨2026, 1, 19⟩
        none none none).exitCode ≠ 0 ∧
      (main_sync sampleParse ["tue. 19 jan. 2026"] ⟨2026, 1, 19⟩
        none none none).writes = []) ∧
    main_sync sampleParse ["tue. 19 jan. 2026"] ⟨2026, 1, 20⟩
        (some 55) (some 200) none = ⟨1, []⟩ :=
  ⟨(main_sync_exit_status sampleParse ["tue. 19 jan. 2026"] ⟨2026, 1, 19⟩
      (some 55) (some 200) none).2.1 1 (by decide) (Or.inl (by decide)),
   (main_sync_exit_status sampleParse ["tue. 19 jan. 2026"] ⟨2026, 1, 19⟩
      none none none).2.2 rfl rfl rfl,
   (main_sync_exit_status sampleParse ["tue. 19 jan. 2026"] ⟨2026, 1, 20⟩
      (some 55) (some 200) none).1 (by decide)⟩

/-- Claim C10: a metric value of exactly 0 is indistinguishable from
absent data: a fetched resting heart rate, training workload or
commute workload equal to 0 is never written to its column (B=2, I=9,
J=10), and if all three values are 0 or absent the process exits with
status 1 — writing nothing — even though a matching row was found. -/
theorem main_sync_zero_not_written
    (parse : String → Option PyDateTime) (date_column : List String) (target : Date)
    (resting_hr training_kj commute_kj : Option Int) (r : Nat)
    (hrow : find_row_by_date parse date_column target = some r) :
    (resting_hr = some 0 →
      ∀ e ∈ (main_sync parse date_column target resting_hr training_kj commute_kj).writes,
        e.2.1 ≠ 2) ∧
    (training_kj = some 0 →
      ∀ e ∈ (main_sync parse date_column target resting_hr training_kj commute_kj).writes,
        e.2.1 ≠ 9) ∧
    (commute_kj = some 0 →
      ∀ e ∈ (main_sync parse date_column target resting_hr training_kj commute_kj).writes,
        e.2.1 ≠ 10) ∧
    ((resting_hr = some 0 ∨ resting_hr = none) →
      (training_kj = some 0 ∨ training_kj = none) →
      (commute_kj = some 0 ∨ commute_kj = none) →
      main_sync parse date_column target resting_hr training_kj commute_kj = ⟨1, []⟩) := by
  have t0 : numTruthy (some 0) = false := by simp [numTruthy]
  refine ⟨?_, ?_, ?_, ?_⟩
  · intro h0
    subst h0
    by_cases h2 : numTruthy training_kj <;> by_cases h3 : numTruthy commute_kj <;>
      simp [main_sync, hrow, t0, h2, h3]
  · intro h0
    subst h0
    by_cases h1 : numTruthy resting_hr <;> by_cases h3 : numTruthy commute_kj <;>
      simp [main_sync, hrow, t0, h1, h3]
  · intro h0
    subst h0
    by_cases h1 : numTruthy resting_hr <;> by_cases h2 : numTruthy training_kj <;>
      simp [main_sync, hrow, t0, h1, h2]
  · intro o1 o2 o3
    have t1 : numTruthy resting_hr = false := by rcases o1 with h | h <;> simp [h, numTruthy]
    have t2 : numTruthy training_kj = false := by rcases o2 with h | h <;> simp [h, numTruthy]
    have t3 : numTruthy commute_kj = false := by rcases o3 with h | h <;> simp [h, numTruthy]
    simp [main_sync, hrow, t1, t2, t3]

/-- Witness for C10: a run with resting heart rate fetched as 0,
training workload 0 and no commute data, on a column with a matching
row, exits with status 1 and writes nothing. -/
theorem main_sync_zero_not_written_witness :
    main_sync sampleParse ["tue. 19 jan. 2026"] ⟨2026, 1, 19⟩
      (some 0) (some 0) none = ⟨1, []⟩ :=
  (main_sync_zero_not_written sampleParse ["tue. 19 jan. 2026"] ⟨2026, 1, 19⟩
      (some 0) (some 0) none 1 (by decide)).2.2.2
    (Or.inl rfl) (Or.inl rfl) (Or.inr rfl)

end TrainingSecretary
